import Mathlib

/-
Verification of the launch-template core of the Azure provisioner
(pkg/providers/launchtemplate/launchtemplate.go): vnet label extraction,
tag merging/sanitization, static parameter construction and template
orchestration, embedded shallowly over association-list models of Go maps.
-/

set_option autoImplicit false

namespace LaunchTemplate

/-- Tag key marking resources as managed by this provisioner; source constant
`karpenterManagedTagKey` (launchtemplate.go line 39). -/
def karpenterManagedTagKey : String := "karpenter.azure.com/cluster"

/-- The managed tag key after ARM sanitization (each slash replaced by an
underscore). -/
def sanitizedManagedTagKey : String := "karpenter.azure.com_cluster"

/-- AzureCNI vnet label key, source constant `vnetDataPlaneLabel`. -/
def vnetDataPlaneLabel : String := "kubernetes.azure.com/ebpf-dataplane"

/-- AzureCNI vnet label key, source constant `vnetNetworkNameLabel`. -/
def vnetNetworkNameLabel : String := "kubernetes.azure.com/network-name"

/-- AzureCNI vnet label key, source constant `vnetSubnetNameLabel`. -/
def vnetSubnetNameLabel : String := "kubernetes.azure.com/network-subnet"

/-- AzureCNI vnet label key, source constant `vnetSubscriptionIDLabel`. -/
def vnetSubscriptionIDLabel : String := "kubernetes.azure.com/network-subscription"

/-- AzureCNI vnet label key, source constant `vnetGUIDLabel`. -/
def vnetGUIDLabel : String := "kubernetes.azure.com/nodenetwork-vnetguid"

/-- AzureCNI vnet label key, source constant `vnetPodNetworkTypeLabel`. -/
def vnetPodNetworkTypeLabel : String := "kubernetes.azure.com/podnetwork-type"

/-- Source constant `ciliumNetworkPlugin`. -/
def ciliumNetworkPlugin : String := "cilium"

/-- Source constant `overlayNetworkType`. -/
def overlayNetworkType : String := "overlay"

/-- A Go `map[string]string`, modelled extensionally as an association list.
Lookup is last-wins, so an association list with duplicate keys behaves as the
corresponding sequence of Go map writes. -/
abbrev StrMap := List (String × String)

/-- Last-wins lookup in an association list: the value of the latest entry
carrying the key, mirroring a Go map built by writing the entries in order. -/
def lookup : StrMap → String → Option String
  | [], _ => none
  | p :: rest, k =>
    match lookup rest k with
    | some v => some v
    | none => if p.1 == k then some p.2 else none

/-- Key set of a Go map model. -/
def keys (m : StrMap) : List String := m.map (fun p => p.1)

/-- Option fallback: the first argument wins when present. -/
def oElse (a b : Option String) : Option String :=
  match a with
  | some v => some v
  | none => b

/-- Go map write `m[k] = v`: any previous entry for `k` is dropped and the new
entry appended; extensionally this is exactly a map update. -/
def mapInsert (m : StrMap) (k v : String) : StrMap :=
  m.filter (fun p => !(p.1 == k)) ++ [(k, v)]

/-- Writing all entries of the source map `m` into the accumulator, one step of
`lo.Assign`. -/
def assignOne (acc : StrMap) (m : StrMap) : StrMap :=
  m.foldl (fun a p => mapInsert a p.1 p.2) acc

/-- `lo.Assign(maps...)`: fold the maps left to right into a freshly allocated
map; on key collision a later map wins. -/
def assign (ms : List StrMap) : StrMap :=
  ms.foldl assignOne []

/-- Binary case of `lo.Assign`, as used at launchtemplate.go lines 91 and 115. -/
def assign2 (a b : StrMap) : StrMap := assign [a, b]

/-- The value of `k` in the latest source map of the sequence that contains
`k`; reference semantics for last-write-wins merging. -/
def lookupLatest : List StrMap → String → Option String
  | [], _ => none
  | m :: rest, k => oElse (lookupLatest rest k) (lookup m k)

/-- Key sanitization of `mergeTags`: models `strings.ReplaceAll(key, "/", "_")`
(for the single-character pattern this is exactly a character map). -/
def sanitizeKey (s : String) : String :=
  String.mk (s.data.map (fun c => if c == '/' then '_' else c))

/-- Model of `mergeTags` (launchtemplate.go lines 179-183):
`lo.MapEntries(lo.Assign(tags...), ...)` re-keys the merged map through
`sanitizeKey`, building a fresh map. Values are modelled as plain strings;
the Go code additionally boxes each value with `to.StringPtr`, which copies it
into an owned pointer and cannot fail. -/
def mergeTags (ms : List StrMap) : StrMap :=
  (assign ms).foldl (fun a p => mapInsert a (sanitizeKey p.1) p.2) []

/-- The node-class fields read by this file: `Spec.VnetSubnetID` (a nullable
string pointer) and `Spec.Tags`. -/
structure NodeClass where
  vnetSubnetID : Option String
  tags : StrMap

/-- The node-claim field read by this file: its label map. -/
structure NodeClaim where
  labels : StrMap

/-- One scheduling requirement: a label key and the list of allowed values
(the `In` operator form used at launchtemplate.go line 111). -/
structure Requirement where
  key : String
  values : List String
  deriving DecidableEq

/-- A requirement set, keyed by label. -/
abbrev Requirements := List Requirement

/-- The instance-type fields read by this file: SKU name and requirement set. -/
structure InstanceType where
  name : String
  requirements : Requirements

/-- Process environment: values of `AZURE_SUBNET_ID` and `AZURE_VNET_GUID`
(`os.Getenv` returns the empty string for an unset variable). -/
structure Env where
  azureSubnetID : String
  azureVnetGUID : String

/-- Modelled from the spec: the process-wide configuration accessor
`options.FromContext(ctx)` (pkg/operator/options, not under src/), read-only
fields listed in spec section 6. -/
structure Options where
  clusterName : String
  clusterID : String
  apiServerName : String
  kubeletClientTLSBootstrapToken : String
  networkPlugin : String
  networkPolicy : String

/-- The provider's own held identifiers (fields of `Provider`). -/
structure ProviderState where
  caBundle : Option String
  clusterEndpoint : String
  tenantID : String
  subscriptionID : String
  userAssignedIdentityID : String
  resourceGroup : String
  location : String

/-- Modelled from the spec: the SKU classification helpers
`utils.IsNvidiaEnabledSKU`, `utils.GetGPUDriverVersion`,
`utils.GetAKSGPUImageSHA` (pkg/utils, not under src/), abstract lookups keyed
on the SKU name (spec section 6). -/
structure SkuClassifier where
  isNvidiaEnabledSKU : String → Bool
  getGPUDriverVersion : String → String
  getAKSGPUImageSHA : String → String

/-- Character-level split on a separator, the semantics of Go
`strings.Split(s, sep)` for a one-character separator: splitting the empty
string yields one empty segment, and a leading/trailing separator yields a
leading/trailing empty segment. -/
def splitOnSlash : List Char → List (List Char)
  | [] => [[]]
  | c :: rest =>
    let r := splitOnSlash rest
    if c == '/' then [] :: r
    else
      match r with
      | [] => [[c]]
      | seg :: segs => (c :: seg) :: segs

/-- Models Go `strings.Split(s, "/")` as used at launchtemplate.go line 163. -/
def splitSlash (s : String) : List String :=
  (splitOnSlash s.data).map String.mk

/-- Model of `getVnetLabelValues` (launchtemplate.go lines 160-175).
`none` models a Go panic. Two panics are reachable: with
`nodeClass.vnetSubnetID = none` the argument `*nodeClass.Spec.VnetSubnetID`
of `lo.Ternary` is evaluated eagerly and dereferences a nil pointer, so the
`AZURE_SUBNET_ID` fallback is never consulted; and with fewer than 3 slash
segments the accesses `parts[len-3]` / `parts[2]` index out of range.
When the split has at least 3 segments, all three indices are in range and
`List.getD` equals the Go index accesses. -/
def getVnetLabelValues (nodeClass : NodeClass) (env : Env) : Option StrMap :=
  match nodeClass.vnetSubnetID with
  | none => none
  | some vnetSubnetID =>
    let parts := splitSlash vnetSubnetID
    if 3 ≤ parts.length then
      some [(vnetDataPlaneLabel, ciliumNetworkPlugin),
            (vnetNetworkNameLabel, parts.getD (parts.length - 3) ""),
            (vnetSubnetNameLabel, parts.getD (parts.length - 1) ""),
            (vnetSubscriptionIDLabel, parts.getD 2 ""),
            (vnetGUIDLabel, env.azureVnetGUID),
            (vnetPodNetworkTypeLabel, overlayNetworkType)]
    else none

/-- Typed errors of the spec's error taxonomy (spec section 7). -/
inductive VnetError where
  | configurationError : String → VnetError
  deriving DecidableEq

/-- Modelled from the spec: the Vnet Label Resolver as the spec demands it
(section 4.1) — the environment fallback supplies the identifier when the
node-class field is absent, and an identifier with fewer than 3 slash segments
fails with a ConfigurationError ("malformed subnet identifier") instead of
indexing out of bounds. -/
def getVnetLabelValuesSpec (nodeClass : NodeClass) (env : Env) :
    Except VnetError StrMap :=
  let vnetSubnetID :=
    match nodeClass.vnetSubnetID with
    | some s => s
    | none => env.azureSubnetID
  let parts := splitSlash vnetSubnetID
  if 3 ≤ parts.length then
    Except.ok [(vnetDataPlaneLabel, ciliumNetworkPlugin),
               (vnetNetworkNameLabel, parts.getD (parts.length - 3) ""),
               (vnetSubnetNameLabel, parts.getD (parts.length - 1) ""),
               (vnetSubscriptionIDLabel, parts.getD 2 ""),
               (vnetGUIDLabel, env.azureVnetGUID),
               (vnetPodNetworkTypeLabel, overlayNetworkType)]
  else Except.error (VnetError.configurationError "malformed subnet identifier")

/-- The well-known architecture label key (`v1.LabelArchStable`). -/
def labelArchStable : String := "kubernetes.io/arch"

/-- Architecture constant `corev1beta1.ArchitectureAmd64`. -/
def architectureAmd64 : String := "amd64"

/-- Architecture constant `corev1beta1.ArchitectureArm64`. -/
def architectureArm64 : String := "arm64"

/-- Modelled from the spec: `scheduling.Requirements.Compatible` (external
karpenter core, not under src/) as the spec describes it (section 4.3): a
compatibility/intersection test — every incoming requirement must intersect
the receiver's requirement for the same key, a key the receiver does not
constrain being compatible with anything. -/
def compatible (rs : Requirements) (incoming : Requirements) : Bool :=
  incoming.all (fun inc =>
    match rs.find? (fun r => r.key == inc.key) with
    | some r => r.values.any (fun v => inc.values.contains v)
    | none => true)

/-- The probe requirement built at launchtemplate.go line 111:
`architecture In [arm64]`. -/
def arm64Requirement : Requirements := [⟨labelArchStable, [architectureArm64]⟩]

/-- Architecture selection of `getStaticParameters` (launchtemplate.go lines
110-113): default amd64, switched to arm64 exactly when the instance type's
requirement set is compatible with the arm64 probe. -/
def detectArch (reqs : Requirements) : String :=
  if compatible reqs arm64Requirement then architectureArm64 else architectureAmd64

/-- Modelled from the spec: `parameters.StaticParameters`
(pkg/providers/launchtemplate/parameters, not under src/), with the fields the
spec lists in section 3 and this file assigns at lines 116-136. -/
structure StaticParameters where
  clusterName : String
  clusterEndpoint : String
  tags : StrMap
  labels : StrMap
  caBundle : Option String
  arch : String
  gpuNode : Bool
  gpuDriverVersion : String
  gpuImageSHA : String
  tenantID : String
  subscriptionID : String
  userAssignedIdentityID : String
  resourceGroup : String
  location : String
  clusterID : String
  apiServerName : String
  kubeletClientTLSBootstrapToken : String
  networkPlugin : String
  networkPolicy : String
  kubernetesVersion : String

/-- Model of `getStaticParameters` (launchtemplate.go lines 109-137).
`none` models the panic propagated from `getVnetLabelValues`. The
`KubernetesVersion` field is not set here (the orchestrator injects it later),
modelled as the empty string. -/
def getStaticParameters (opts : Options) (pstate : ProviderState) (env : Env)
    (sku : SkuClassifier) (instanceType : InstanceType) (nodeClass : NodeClass)
    (labels : StrMap) : Option StaticParameters :=
  let arch := detectArch instanceType.requirements
  match getVnetLabelValues nodeClass env with
  | none => none
  | some vnetLabels =>
    some {
      clusterName := opts.clusterName
      clusterEndpoint := pstate.clusterEndpoint
      tags := nodeClass.tags
      labels := assign2 labels vnetLabels
      caBundle := pstate.caBundle
      arch := arch
      gpuNode := sku.isNvidiaEnabledSKU instanceType.name
      gpuDriverVersion := sku.getGPUDriverVersion instanceType.name
      gpuImageSHA := sku.getAKSGPUImageSHA instanceType.name
      tenantID := pstate.tenantID
      subscriptionID := pstate.subscriptionID
      userAssignedIdentityID := pstate.userAssignedIdentityID
      resourceGroup := pstate.resourceGroup
      location := pstate.location
      clusterID := opts.clusterID
      apiServerName := opts.apiServerName
      kubeletClientTLSBootstrapToken := opts.kubeletClientTLSBootstrapToken
      networkPlugin := opts.networkPlugin
      networkPolicy := opts.networkPolicy
      kubernetesVersion := "" }

/-- Go `error` values, abstracted as their message strings; the code under
verification only passes them through unchanged. -/
abbrev GoError := String

/-- Abstract boot-script descriptor (the `UserData` bootstrapper object owned
by the external resolver; only its identity matters here). -/
structure UserData where
  descriptor : String

/-- Modelled from the spec: `parameters.Parameters`, the full parameter record
produced by the external image-family resolver
(pkg/providers/launchtemplate/parameters, not under src/) — the fields
`createLaunchTemplate` reads: the tag map and cluster name (from the embedded
static parameters), the user-data descriptor and the image ID. -/
structure Parameters where
  tags : StrMap
  clusterName : String
  userData : UserData
  imageID : String

/-- The output entity `Template` (launchtemplate.go lines 53-57). -/
structure Template where
  userData : String
  imageID : String
  tags : StrMap

/-- The external collaborators of `GetTemplate` (spec section 6): the cluster
version lookup `imageProvider.KubeServerVersion`, the image-family resolver
`imageFamily.Resolve`, and the boot-script renderer `UserData.Script`. -/
structure Collaborators where
  kubeServerVersion : Except GoError String
  resolve : NodeClass → NodeClaim → InstanceType → StaticParameters → Except GoError Parameters
  script : UserData → Except GoError String

/-- Model of `createLaunchTemplate` (launchtemplate.go lines 139-154): render
the user data, then merge the resolver's tags with the synthetic managed-by
entry (merged last) and assemble the Template. -/
def createLaunchTemplate (script : UserData → Except GoError String)
    (ps : Parameters) : Except GoError Template :=
  match script ps.userData with
  | Except.error e => Except.error e
  | Except.ok userData =>
    Except.ok { userData := userData, imageID := ps.imageID,
                tags := mergeTags [ps.tags, [(karpenterManagedTagKey, ps.clusterName)]] }

/-- Model of `GetTemplate` (launchtemplate.go lines 89-107): build static
parameters from the union of node-claim labels and additional labels, query
the cluster version, inject it, delegate to the resolver, then build the
launch template; every error returns immediately with no template. The outer
`none` models the panic propagated from `getStaticParameters`. -/
def GetTemplate (opts : Options) (pstate : ProviderState) (env : Env)
    (sku : SkuClassifier) (c : Collaborators) (nodeClass : NodeClass)
    (nodeClaim : NodeClaim) (instanceType : InstanceType)
    (additionalLabels : StrMap) : Option (Except GoError Template) :=
  match getStaticParameters opts pstate env sku instanceType nodeClass
      (assign2 nodeClaim.labels additionalLabels) with
  | none => none
  | some sp =>
    some (match c.kubeServerVersion with
      | Except.error e => Except.error e
      | Except.ok v =>
        match c.resolve nodeClass nodeClaim instanceType { sp with kubernetesVersion := v } with
        | Except.error e => Except.error e
        | Except.ok tp => createLaunchTemplate c.script tp)

/-! Helper lemmas about the Go map model. -/

@[simp]
theorem lookup_nil (k : String) : lookup [] k = none := rfl

theorem oElse_none_left (b : Option String) : oElse none b = b := rfl

theorem oElse_none_right (a : Option String) : oElse a none = a := by
  cases a <;> rfl

theorem oElse_assoc (a b c : Option String) :
    oElse (oElse a b) c = oElse a (oElse b c) := by
  cases a <;> rfl

theorem lookup_cons (p : String × String) (m : StrMap) (k : String) :
    lookup (p :: m) k = oElse (lookup m k) (if p.1 == k then some p.2 else none) := rfl

theorem lookup_append (a b : StrMap) (k : String) :
    lookup (a ++ b) k = oElse (lookup b k) (lookup a k) := by
  induction a with
  | nil => simp [oElse_none_right]
  | cons p a ih => simp only [List.cons_append, lookup_cons, ih, oElse_assoc]

theorem str_beq_false {a b : String} (h : ¬ a = b) : (a == b) = false := by
  cases hbe : a == b
  · rfl
  · exact absurd (eq_of_beq hbe) h

theorem lookup_filter_ne (m : StrMap) (k k' : String) :
    lookup (m.filter (fun p => !(p.1 == k))) k' =
      if k' = k then none else lookup m k' := by
  induction m with
  | nil => by_cases hk : k' = k <;> simp [hk]
  | cons p m ih =>
    by_cases hpk : p.1 = k
    · have hf : (!(p.1 == k)) = false := by simp [hpk]
      rw [List.filter_cons, hf]
      simp only [Bool.false_eq_true, if_false]
      rw [ih]
      by_cases hk : k' = k
      · simp [hk]
      · have hp' : (p.1 == k') = false := str_beq_false (fun h => hk (hpk ▸ h).symm)
        simp [hk, lookup_cons, hp', oElse_none_right]
    · have hf : (!(p.1 == k)) = true := by simp [hpk]
      rw [List.filter_cons, hf]
      simp only [if_true]
      rw [lookup_cons, ih, lookup_cons]
      by_cases hk : k' = k
      · have hp' : (p.1 == k') = false := str_beq_false (fun h => hpk (hk ▸ h))
        simp [hk, hp', oElse, hpk]
      · simp [hk]

theorem lookup_mapInsert (m : StrMap) (k v k' : String) :
    lookup (mapInsert m k v) k' = if k' = k then some v else lookup m k' := by
  rw [mapInsert, lookup_append, lookup_filter_ne]
  by_cases hk : k' = k
  · simp [hk, lookup_cons, oElse]
  · have hp' : (k == k') = false := str_beq_false (fun h => hk h.symm)
    simp [hk, lookup_cons, hp', oElse, oElse_none_right]

theorem lookup_assignOne (m : StrMap) (k : String) :
    ∀ acc : StrMap, lookup (assignOne acc m) k = oElse (lookup m k) (lookup acc k) := by
  induction m with
  | nil => intro acc; rfl
  | cons p m ih =>
    intro acc
    show lookup (assignOne (mapInsert acc p.1 p.2) m) k = _
    rw [ih, lookup_mapInsert, lookup_cons, oElse_assoc]
    congr 1
    by_cases hk : k = p.1
    · simp [hk, oElse]
    · have hp' : (p.1 == k) = false := str_beq_false (fun h => hk h.symm)
      simp [hk, oElse, hp']

theorem lookup_foldl_assignOne (ms : List StrMap) (k : String) :
    ∀ acc : StrMap, lookup (ms.foldl assignOne acc) k
      = oElse (lookupLatest ms k) (lookup acc k) := by
  induction ms with
  | nil => intro acc; rfl
  | cons m ms ih =>
    intro acc
    show lookup (ms.foldl assignOne (assignOne acc m)) k = _
    rw [ih, lookup_assignOne, ← oElse_assoc]
    rfl

theorem lookup_assign (ms : List StrMap) (k : String) :
    lookup (assign ms) k = lookupLatest ms k := by
  have h := lookup_foldl_assignOne ms k []
  simpa [assign, oElse_none_right] using h

theorem lookup_assign2 (a b : StrMap) (k : String) :
    lookup (assign2 a b) k = oElse (lookup b k) (lookup a k) := by
  rw [assign2, lookup_assign]
  show oElse (oElse (lookupLatest [] k) (lookup b k)) (lookup a k) = _
  rw [show lookupLatest [] k = none from rfl, oElse_none_left]

theorem lookup_isSome_iff_mem_keys (m : StrMap) (k : String) :
    (lookup m k).isSome = true ↔ k ∈ keys m := by
  induction m with
  | nil => simp [keys]
  | cons p m ih =>
    rw [lookup_cons]
    have hkeys : keys (p :: m) = p.1 :: keys m := rfl
    rw [hkeys]
    cases h : lookup m k with
    | some v =>
      rw [h] at ih
      rw [show oElse (some v) (if p.1 == k then some p.2 else none) = some v from rfl]
      simp only [Option.isSome_some, true_iff]
      exact List.mem_cons_of_mem _ (ih.mp rfl)
    | none =>
      rw [h] at ih
      rw [show oElse none (if p.1 == k then some p.2 else none)
            = (if p.1 == k then some p.2 else none) from rfl]
      constructor
      · intro hs
        by_cases hp : p.1 = k
        · exact hp ▸ List.mem_cons_self _ _
        · rw [str_beq_false hp] at hs
          simp at hs
      · intro hmem
        rcases List.mem_cons.mp hmem with hk | hk
        · rw [show (p.1 == k) = true from by simp [hk]]
          simp
        · exact absurd (ih.mpr hk) (by simp)

theorem lookup_eq_none_of_not_mem (m : StrMap) (k : String) (h : ¬ k ∈ keys m) :
    lookup m k = none := by
  cases hl : lookup m k with
  | none => rfl
  | some v => exact absurd ((lookup_isSome_iff_mem_keys m k).mp (by simp [hl])) h

theorem exists_mem_of_lookupLatest_isSome (ms : List StrMap) (k : String)
    (h : (lookupLatest ms k).isSome = true) : ∃ m ∈ ms, k ∈ keys m := by
  induction ms with
  | nil => simp [lookupLatest] at h
  | cons m ms ih =>
    rw [show lookupLatest (m :: ms) k = oElse (lookupLatest ms k) (lookup m k) from rfl] at h
    cases hl : lookupLatest ms k with
    | some v =>
      obtain ⟨m', hm', hk⟩ := ih (by simp [hl])
      exact ⟨m', List.mem_cons_of_mem _ hm', hk⟩
    | none =>
      rw [hl, oElse_none_left] at h
      exact ⟨m, List.mem_cons_self _ _, (lookup_isSome_iff_mem_keys m k).mp h⟩

theorem mem_keys_assign (ms : List StrMap) (k : String)
    (h : k ∈ keys (assign ms)) : ∃ m ∈ ms, k ∈ keys m := by
  apply exists_mem_of_lookupLatest_isSome
  rw [← lookup_assign]
  exact (lookup_isSome_iff_mem_keys _ _).mpr h

theorem lookup_sanitizeFold (l : StrMap) (k' : String) :
    ∀ acc : StrMap,
      lookup (l.foldl (fun a p => mapInsert a (sanitizeKey p.1) p.2) acc) k'
        = oElse (lookup (l.map (fun p => (sanitizeKey p.1, p.2))) k') (lookup acc k') := by
  induction l with
  | nil => intro acc; rfl
  | cons p l ih =>
    intro acc
    show lookup (l.foldl (fun a p => mapInsert a (sanitizeKey p.1) p.2)
        (mapInsert acc (sanitizeKey p.1) p.2)) k' = _
    rw [ih, lookup_mapInsert, List.map_cons, lookup_cons, oElse_assoc]
    congr 1
    by_cases hk : k' = sanitizeKey p.1
    · simp [hk, oElse]
    · have hp' : (sanitizeKey p.1 == k') = false := str_beq_false (fun h => hk h.symm)
      simp [hk, oElse, hp']

theorem lookup_mergeTags (ms : List StrMap) (k' : String) :
    lookup (mergeTags ms) k'
      = lookup ((assign ms).map (fun p => (sanitizeKey p.1, p.2))) k' := by
  rw [show mergeTags ms
        = (assign ms).foldl (fun a p => mapInsert a (sanitizeKey p.1) p.2) [] from rfl,
    lookup_sanitizeFold, lookup_nil, oElse_none_right]

theorem lookup_map_sanitize (l : StrMap) (k : String)
    (hinj : ∀ q ∈ l, sanitizeKey q.1 = sanitizeKey k → q.1 = k) :
    lookup (l.map (fun p => (sanitizeKey p.1, p.2))) (sanitizeKey k) = lookup l k := by
  induction l with
  | nil => rfl
  | cons p l ih =>
    rw [List.map_cons, lookup_cons, lookup_cons,
      ih (fun q hq => hinj q (List.mem_cons_of_mem _ hq))]
    congr 1
    by_cases hp : p.1 = k
    · rw [hp]
      simp
    · have hs : ¬ sanitizeKey p.1 = sanitizeKey k :=
        fun h => hp (hinj p (List.mem_cons_self _ _) h)
      rw [str_beq_false hs, str_beq_false hp]

theorem keys_mergeTags_sanitized (ms : List StrMap) (k' : String)
    (h : k' ∈ keys (mergeTags ms)) : ∃ q ∈ assign ms, sanitizeKey q.1 = k' := by
  have h1 : (lookup (mergeTags ms) k').isSome = true :=
    (lookup_isSome_iff_mem_keys _ _).mpr h
  rw [lookup_mergeTags] at h1
  have h2 : k' ∈ keys ((assign ms).map (fun p => (sanitizeKey p.1, p.2))) :=
    (lookup_isSome_iff_mem_keys _ _).mp h1
  have h3 : k' ∈ (assign ms).map (fun p => sanitizeKey p.1) := by
    rw [show keys ((assign ms).map (fun p => (sanitizeKey p.1, p.2)))
          = (assign ms).map (fun p => sanitizeKey p.1) from by
        simp [keys]] at h2
    exact h2
  obtain ⟨q, hq, hk⟩ := List.mem_map.mp h3
  exact ⟨q, hq, hk⟩

theorem sanitizeKey_no_slash (s : String) : ¬ ('/' : Char) ∈ (sanitizeKey s).data := by
  intro h
  have h' : ('/' : Char) ∈ s.data.map (fun c => if c == '/' then '_' else c) := h
  obtain ⟨c, _, hc⟩ := List.mem_map.mp h'
  by_cases hcs : c = '/'
  · rw [hcs] at hc
    simp at hc
  · rw [if_neg (by simpa using hcs)] at hc
    exact hcs hc

theorem no_slash_key_not_in_mergeTags (ms : List StrMap) (k' : String)
    (hslash : ('/' : Char) ∈ k'.data) : ¬ k' ∈ keys (mergeTags ms) := by
  intro h
  obtain ⟨q, _, hq⟩ := keys_mergeTags_sanitized ms k' h
  rw [← hq] at hslash
  exact sanitizeKey_no_slash q.1 hslash

/-! Helper lemmas about the static-parameter builder. -/

theorem getStaticParameters_arch (opts : Options) (pstate : ProviderState) (env : Env)
    (sku : SkuClassifier) (instanceType : InstanceType) (nodeClass : NodeClass)
    (labels : StrMap) :
    (getStaticParameters opts pstate env sku instanceType nodeClass labels).map
        StaticParameters.arch
      = (getVnetLabelValues nodeClass env).map
          (fun _ => detectArch instanceType.requirements) := by
  rw [getStaticParameters]
  cases getVnetLabelValues nodeClass env <;> rfl

theorem getStaticParameters_labels (opts : Options) (pstate : ProviderState) (env : Env)
    (sku : SkuClassifier) (instanceType : InstanceType) (nodeClass : NodeClass)
    (labels vnet : StrMap) (h : getVnetLabelValues nodeClass env = some vnet) :
    (getStaticParameters opts pstate env sku instanceType nodeClass labels).map
        StaticParameters.labels
      = some (assign2 labels vnet) := by
  rw [getStaticParameters, h]
  rfl

theorem getStaticParameters_isSome (opts : Options) (pstate : ProviderState) (env : Env)
    (sku : SkuClassifier) (instanceType : InstanceType) (nodeClass : NodeClass)
    (labels vnet : StrMap) (h : getVnetLabelValues nodeClass env = some vnet) :
    ∃ sp, getStaticParameters opts pstate env sku instanceType nodeClass labels = some sp := by
  rw [getStaticParameters, h]
  exact ⟨_, rfl⟩

theorem oElse_isSome (x y : Option String) :
    (oElse x y).isSome = true ↔ x.isSome = true ∨ y.isSome = true := by
  cases x <;> simp [oElse]

theorem lookup_assign2_chain (a b c : StrMap) (k : String) :
    lookup (assign2 (assign2 a b) c) k
      = oElse (lookup c k) (oElse (lookup b k) (lookup a k)) := by
  rw [lookup_assign2, lookup_assign2]

theorem lookup_assign_pair_managed (tags : StrMap) (mk cn : String) :
    lookup (assign [tags, [(mk, cn)]]) mk = some cn := by
  rw [lookup_assign]
  simp [lookupLatest, lookup_cons, oElse]

theorem lookup_assign_pair_other (tags : StrMap) (mk cn k : String) (hk : ¬ k = mk) :
    lookup (assign [tags, [(mk, cn)]]) k = lookup tags k := by
  rw [lookup_assign]
  have hb : (mk == k) = false := str_beq_false (fun h => hk h.symm)
  simp [lookupLatest, lookup_cons, oElse, hb]

theorem createLaunchTemplate_ok_tags (script : UserData → Except GoError String)
    (ps : Parameters) (t : Template) (h : createLaunchTemplate script ps = Except.ok t) :
    t.tags = mergeTags [ps.tags, [(karpenterManagedTagKey, ps.clusterName)]] := by
  rw [createLaunchTemplate] at h
  cases hs : script ps.userData with
  | error e => rw [hs] at h; exact Except.noConfusion h
  | ok ud => rw [hs] at h; cases h; rfl

/-! Concrete sample values used by the witnesses below. -/

/-- The end-to-end scenario 1 subnet identifier (spec section 8). -/
def scenario1SubnetID : String :=
  "/subscriptions/sub1/resourceGroups/rg/providers/Microsoft.Network/virtualNetworks/vnet1/subnets/subnet1"

/-- The six vnet labels the resolver derives from `scenario1SubnetID` with
vnet GUID "guid-1". -/
def scenario1VnetLabels : StrMap :=
  [(vnetDataPlaneLabel, ciliumNetworkPlugin),
   (vnetNetworkNameLabel, "vnet1"),
   (vnetSubnetNameLabel, "subnet1"),
   (vnetSubscriptionIDLabel, "sub1"),
   (vnetGUIDLabel, "guid-1"),
   (vnetPodNetworkTypeLabel, overlayNetworkType)]

/-- Sample process-wide configuration. -/
def sampleOptions : Options :=
  ⟨"cluster-1", "cid", "api-server", "bootstrap-token", "azure", "cilium"⟩

/-- Sample provider identifiers. -/
def sampleProviderState : ProviderState :=
  ⟨none, "https://endpoint", "tenant", "sub", "identity", "rg", "eastus"⟩

/-- Sample environment with the vnet GUID set and the subnet fallback unset. -/
def sampleEnv : Env := ⟨"", "guid-1"⟩

/-- Sample SKU classifier (non-GPU). -/
def sampleSku : SkuClassifier := ⟨fun _ => false, fun _ => "", fun _ => ""⟩

/-- Sample node class carrying the scenario 1 subnet identifier. -/
def sampleNodeClass : NodeClass := ⟨some scenario1SubnetID, []⟩

/-- Sample instance type advertising both amd64 and arm64. -/
def sampleInstanceType : InstanceType :=
  ⟨"Standard_D2s_v3", [⟨labelArchStable, [architectureAmd64, architectureArm64]⟩]⟩

/-! Claim theorems. -/

/-- C1: the claim requires the Vnet Label Resolver to fail with a
ConfigurationError ("malformed subnet identifier") on every subnet identifier
whose slash-split form has fewer than 3 segments. The code does not: on the
one-segment identifier "abc" `getVnetLabelValues` indexes out of bounds and
panics (modelled `none`), and when neither the node-class field nor the
environment supplies an identifier it panics dereferencing the nil field
inside the eagerly evaluated `lo.Ternary` argument; the spec-mandated
behavior `getVnetLabelValuesSpec` returns the ConfigurationError in both
cases. -/
theorem vnet_malformed_identifier_panics_not_configuration_error :
    getVnetLabelValues ⟨some "abc", []⟩ sampleEnv = none ∧
    getVnetLabelValuesSpec ⟨some "abc", []⟩ sampleEnv
      = Except.error (VnetError.configurationError "malformed subnet identifier") ∧
    getVnetLabelValues ⟨none, []⟩ ⟨"", ""⟩ = none ∧
    getVnetLabelValuesSpec ⟨none, []⟩ ⟨"", ""⟩
      = Except.error (VnetError.configurationError "malformed subnet identifier") :=
  ⟨rfl, rfl, rfl, rfl⟩

/-- C2: the claim states that for every subnet identifier with at least 3
slash segments the resolver returns exactly the six labels with subscription
ID at index 2, network name at index (length − 3) and subnet name last. This
holds whenever the node-class field supplies the identifier (third conjunct),
but when the identifier arrives through the environment fallback (node-class
field nil) the code panics on a nil pointer dereference — `lo.Ternary`
evaluates `*nodeClass.Spec.VnetSubnetID` eagerly — before reading the
environment, contradicting both the claim and the code's own comment; the
spec-mandated resolver returns the six labels there. -/
theorem vnet_env_fallback_panics_despite_valid_identifier :
    getVnetLabelValues ⟨none, []⟩ ⟨scenario1SubnetID, "guid-1"⟩ = none ∧
    getVnetLabelValuesSpec ⟨none, []⟩ ⟨scenario1SubnetID, "guid-1"⟩
      = Except.ok scenario1VnetLabels ∧
    (∀ (id : String) (tags : StrMap) (env : Env),
      3 ≤ (splitSlash id).length →
      getVnetLabelValues ⟨some id, tags⟩ env
        = some [(vnetDataPlaneLabel, ciliumNetworkPlugin),
                (vnetNetworkNameLabel, (splitSlash id).getD ((splitSlash id).length - 3) ""),
                (vnetSubnetNameLabel, (splitSlash id).getD ((splitSlash id).length - 1) ""),
                (vnetSubscriptionIDLabel, (splitSlash id).getD 2 ""),
                (vnetGUIDLabel, env.azureVnetGUID),
                (vnetPodNetworkTypeLabel, overlayNetworkType)]) := by
  refine ⟨rfl, rfl, ?_⟩
  intro id tags env h
  show (if 3 ≤ (splitSlash id).length then
          some [(vnetDataPlaneLabel, ciliumNetworkPlugin),
                (vnetNetworkNameLabel, (splitSlash id).getD ((splitSlash id).length - 3) ""),
                (vnetSubnetNameLabel, (splitSlash id).getD ((splitSlash id).length - 1) ""),
                (vnetSubscriptionIDLabel, (splitSlash id).getD 2 ""),
                (vnetGUIDLabel, env.azureVnetGUID),
                (vnetPodNetworkTypeLabel, overlayNetworkType)]
        else none) = _
  rw [if_pos h]

/-- C2 witness: on the scenario 1 identifier supplied by the node-class
field, the resolver returns exactly the six expected labels. -/
theorem vnet_env_fallback_panics_despite_valid_identifier_witness :
    getVnetLabelValues ⟨some scenario1SubnetID, []⟩ sampleEnv = some scenario1VnetLabels := by
  rw [vnet_env_fallback_panics_despite_valid_identifier.2.2 scenario1SubnetID [] sampleEnv
    (by decide)]
  decide

/-- C3: whenever a step of `GetTemplate` fails, the remaining steps are not
executed and the operation returns the error with no template: a failed
cluster-version lookup propagates its error for every resolver and renderer
(so neither is consulted), a failed image-family resolution propagates its
error for every renderer (so the boot script is never rendered), and a failed
boot-script rendering propagates its error; in this model an error return
carries no Template value at all, so no partially-filled Template can be
returned. -/
theorem getTemplate_short_circuits_on_failure (opts : Options) (pstate : ProviderState)
    (env : Env) (sku : SkuClassifier) (nodeClass : NodeClass) (nodeClaim : NodeClaim)
    (instanceType : InstanceType) (additionalLabels : StrMap) (vnet : StrMap)
    (hv : getVnetLabelValues nodeClass env = some vnet) :
    (∀ (e : GoError)
        (resolve : NodeClass → NodeClaim → InstanceType → StaticParameters → Except GoError Parameters)
        (script : UserData → Except GoError String),
      GetTemplate opts pstate env sku ⟨Except.error e, resolve, script⟩ nodeClass nodeClaim
          instanceType additionalLabels = some (Except.error e)) ∧
    (∀ (v : String) (e : GoError) (script : UserData → Except GoError String),
      GetTemplate opts pstate env sku ⟨Except.ok v, fun _ _ _ _ => Except.error e, script⟩
          nodeClass nodeClaim instanceType additionalLabels = some (Except.error e)) ∧
    (∀ (v : String) (tp : Parameters) (e : GoError),
      GetTemplate opts pstate env sku
          ⟨Except.ok v, fun _ _ _ _ => Except.ok tp, fun _ => Except.error e⟩
          nodeClass nodeClaim instanceType additionalLabels = some (Except.error e)) := by
  refine ⟨?_, ?_, ?_⟩
  · intro e resolve script
    simp [GetTemplate, getStaticParameters, hv]
  · intro v e script
    simp [GetTemplate, getStaticParameters, hv]
  · intro v tp e
    simp [GetTemplate, getStaticParameters, hv, createLaunchTemplate]

/-- C3 witness: a simulated image-resolution failure makes `GetTemplate`
return exactly that error and no template, with an arbitrary renderer left
unused. -/
theorem getTemplate_short_circuits_on_failure_witness :
    GetTemplate sampleOptions sampleProviderState sampleEnv sampleSku
        ⟨Except.ok "1.29", fun _ _ _ _ => Except.error "resolution failed",
          fun _ => Except.ok "script"⟩
        sampleNodeClass ⟨[]⟩ sampleInstanceType [] = some (Except.error "resolution failed") :=
  (getTemplate_short_circuits_on_failure sampleOptions sampleProviderState sampleEnv sampleSku
      sampleNodeClass ⟨[]⟩ sampleInstanceType [] scenario1VnetLabels (by decide)).2.1
    "1.29" "resolution failed" (fun _ => Except.ok "script")

/-- C4: the static-parameter builder's architecture is exactly
`detectArch` of the instance type's requirement set whenever the build
completes; the detected value is always exactly one of arm64 and amd64; it is
arm64 precisely when the requirement set is compatible with the explicit
arm64 constraint; and an instance type whose architecture requirement
advertises arm64 (possibly along with amd64) yields arm64. -/
theorem staticParameters_arch_detection :
    (∀ (opts : Options) (pstate : ProviderState) (env : Env) (sku : SkuClassifier)
        (instanceType : InstanceType) (nodeClass : NodeClass) (labels : StrMap),
      (getStaticParameters opts pstate env sku instanceType nodeClass labels).map
          StaticParameters.arch
        = (getVnetLabelValues nodeClass env).map
            (fun _ => detectArch instanceType.requirements)) ∧
    (∀ reqs : Requirements,
      detectArch reqs = architectureArm64 ∨ detectArch reqs = architectureAmd64) ∧
    (∀ reqs : Requirements,
      detectArch reqs = architectureArm64 ↔ compatible reqs arm64Requirement = true) ∧
    (∀ (reqs : Requirements) (vals : List String),
      reqs.find? (fun r => r.key == labelArchStable) = some ⟨labelArchStable, vals⟩ →
      architectureArm64 ∈ vals →
      detectArch reqs = architectureArm64) := by
  have hiff : ∀ reqs : Requirements,
      detectArch reqs = architectureArm64 ↔ compatible reqs arm64Requirement = true := by
    intro reqs
    by_cases hc : compatible reqs arm64Requirement = true
    · simp [detectArch, hc]
    · simp [detectArch, hc]
      decide
  refine ⟨?_, ?_, hiff, ?_⟩
  · intro opts pstate env sku instanceType nodeClass labels
    exact getStaticParameters_arch opts pstate env sku instanceType nodeClass labels
  · intro reqs
    by_cases hc : compatible reqs arm64Requirement = true
    · exact Or.inl (by simp [detectArch, hc])
    · exact Or.inr (by simp [detectArch, hc])
  · intro reqs vals hfind hmem
    refine (hiff reqs).mpr ?_
    have hany : vals.any (fun v => List.contains [architectureArm64] v) = true :=
      List.any_eq_true.mpr ⟨architectureArm64, hmem, by decide⟩
    simp only [compatible, arm64Requirement, List.all_cons, List.all_nil, Bool.and_true]
    rw [hfind]
    exact hany

/-- C4 witness: an instance type advertising both amd64 and arm64 is detected
as arm64; one advertising only amd64 is detected as amd64. -/
theorem staticParameters_arch_detection_witness :
    detectArch [⟨labelArchStable, [architectureAmd64, architectureArm64]⟩]
      = architectureArm64 ∧
    detectArch [⟨labelArchStable, [architectureAmd64]⟩] = architectureAmd64 :=
  ⟨staticParameters_arch_detection.2.2.2
      [⟨labelArchStable, [architectureAmd64, architectureArm64]⟩]
      [architectureAmd64, architectureArm64] (by decide) (by decide),
   by decide⟩

/-- C5: merging no maps yields the empty mapping; the underlying map union is
associative (extensionally, under lookup); the value of any key in the merged
union is the value from the latest source map containing it; and through
`mergeTags` the same holds at the sanitized key for every key whose sanitized
form collides with no other key of the union (`mergeTags` is a total
function, so it never returns an error). -/
theorem mergeTags_last_wins_and_associative :
    mergeTags [] = [] ∧
    (∀ (a b c : StrMap) (k : String),
      lookup (assign2 (assign2 a b) c) k = lookup (assign2 a (assign2 b c)) k) ∧
    (∀ (ms : List StrMap) (k : String), lookup (assign ms) k = lookupLatest ms k) ∧
    (∀ (ms : List StrMap) (k : String),
      (∀ q ∈ assign ms, sanitizeKey q.1 = sanitizeKey k → q.1 = k) →
      lookup (mergeTags ms) (sanitizeKey k) = lookupLatest ms k) := by
  refine ⟨rfl, ?_, lookup_assign, ?_⟩
  · intro a b c k
    rw [lookup_assign2_chain, lookup_assign2, lookup_assign2, oElse_assoc]
  · intro ms k hinj
    rw [lookup_mergeTags, lookup_map_sanitize _ _ hinj, lookup_assign]

/-- C5 witness: with two sources both carrying key "x", the merged value at
the (sanitized) key is the later source's value. -/
theorem mergeTags_last_wins_and_associative_witness :
    lookup (mergeTags [[("x", "1")], [("x", "2")]]) (sanitizeKey "x") = some "2" := by
  rw [mergeTags_last_wins_and_associative.2.2.2 [[("x", "1")], [("x", "2")]] "x" (by decide)]
  decide

/-- C6: every key of a `mergeTags` output has each slash replaced by an
underscore — no output key contains a slash — and the spec's end-to-end
scenario 2 holds: merging {"a/b": "1"} with {"c": "2", "a/b": "3"} yields
exactly the two entries "a_b" ↦ "3" and "c" ↦ "2". -/
theorem mergeTags_sanitizes_keys :
    (∀ (ms : List StrMap) (k : String),
      k ∈ keys (mergeTags ms) → ¬ ('/' : Char) ∈ k.data) ∧
    lookup (mergeTags [[("a/b", "1")], [("c", "2"), ("a/b", "3")]]) "a_b" = some "3" ∧
    lookup (mergeTags [[("a/b", "1")], [("c", "2"), ("a/b", "3")]]) "c" = some "2" ∧
    (keys (mergeTags [[("a/b", "1")], [("c", "2"), ("a/b", "3")]])).length = 2 := by
  refine ⟨?_, by decide, by decide, by decide⟩
  intro ms k hmem hs
  exact no_slash_key_not_in_mergeTags ms k hs hmem

/-- C6 witness: the key "a_b" of the merged scenario 2 output contains no
slash. -/
theorem mergeTags_sanitizes_keys_witness :
    ¬ ('/' : Char) ∈ ("a_b" : String).data :=
  mergeTags_sanitizes_keys.1 [[("a/b", "1")]] "a_b" (by decide)

/-- C7: the label set of the built static parameters is exactly the union of
the node-claim labels, the additional labels, and the vnet labels in that
merge order; under lookup, vnet labels override additional labels, which
override node-claim labels; and every key of every source appears in the
final label set. -/
theorem label_assembly_precedence :
    (∀ (opts : Options) (pstate : ProviderState) (env : Env) (sku : SkuClassifier)
        (instanceType : InstanceType) (nodeClass : NodeClass) (nodeClaim : NodeClaim)
        (additionalLabels vnet : StrMap),
      getVnetLabelValues nodeClass env = some vnet →
      (getStaticParameters opts pstate env sku instanceType nodeClass
          (assign2 nodeClaim.labels additionalLabels)).map StaticParameters.labels
        = some (assign2 (assign2 nodeClaim.labels additionalLabels) vnet)) ∧
    (∀ (claimLabels additionalLabels vnet : StrMap) (k : String),
      lookup (assign2 (assign2 claimLabels additionalLabels) vnet) k
        = oElse (lookup vnet k) (oElse (lookup additionalLabels k) (lookup claimLabels k))) ∧
    (∀ (claimLabels additionalLabels vnet : StrMap) (k : String),
      (k ∈ keys claimLabels ∨ k ∈ keys additionalLabels ∨ k ∈ keys vnet) →
      k ∈ keys (assign2 (assign2 claimLabels additionalLabels) vnet)) := by
  refine ⟨?_, ?_, ?_⟩
  · intro opts pstate env sku instanceType nodeClass nodeClaim additionalLabels vnet hv
    exact getStaticParameters_labels opts pstate env sku instanceType nodeClass _ vnet hv
  · intro a b c k
    exact lookup_assign2_chain a b c k
  · intro a b c k h
    rw [← lookup_isSome_iff_mem_keys, lookup_assign2_chain, oElse_isSome, oElse_isSome,
      lookup_isSome_iff_mem_keys, lookup_isSome_iff_mem_keys, lookup_isSome_iff_mem_keys]
    tauto

/-- C7 witness: with a node-claim label, an additional label and the scenario
1 vnet labels, the built label set is exactly the three-way union in merge
order. -/
theorem label_assembly_precedence_witness :
    (getStaticParameters sampleOptions sampleProviderState sampleEnv sampleSku
        sampleInstanceType sampleNodeClass
        (assign2 [("a", "claim")] [("a", "extra")])).map StaticParameters.labels
      = some (assign2 (assign2 [("a", "claim")] [("a", "extra")]) scenario1VnetLabels) :=
  label_assembly_precedence.1 sampleOptions sampleProviderState sampleEnv sampleSku
    sampleInstanceType sampleNodeClass ⟨[("a", "claim")]⟩ [("a", "extra")]
    scenario1VnetLabels (by decide)

/-- C8: the tag set of every successfully created template is the merge of
the resolver's tag output with the single synthetic entry mapping the managed
tag key to the cluster name, merged last: in the merged union the managed tag
key always carries the cluster name, and every other key keeps its value from
the resolver's output. -/
theorem template_tags_managed_entry_merged_last :
    (∀ (script : UserData → Except GoError String) (ps : Parameters),
      (createLaunchTemplate script ps).map Template.tags
        = (script ps.userData).map
            (fun _ => mergeTags [ps.tags, [(karpenterManagedTagKey, ps.clusterName)]])) ∧
    (∀ (tags : StrMap) (cn : String),
      lookup (assign [tags, [(karpenterManagedTagKey, cn)]]) karpenterManagedTagKey
        = some cn) ∧
    (∀ (tags : StrMap) (cn k : String),
      ¬ k = karpenterManagedTagKey →
      lookup (assign [tags, [(karpenterManagedTagKey, cn)]]) k = lookup tags k) := by
  refine ⟨?_, ?_, ?_⟩
  · intro script ps
    cases hs : script ps.userData <;> simp [createLaunchTemplate, hs, Except.map]
  · intro tags cn
    exact lookup_assign_pair_managed tags karpenterManagedTagKey cn
  · intro tags cn k hk
    exact lookup_assign_pair_other tags karpenterManagedTagKey cn k hk

/-- C8 witness: a resolver tag under another key survives the merge with the
synthetic managed entry unchanged. -/
theorem template_tags_managed_entry_merged_last_witness :
    lookup (assign [[("env", "prod")], [(karpenterManagedTagKey, "cluster-1")]]) "env"
      = some "prod" := by
  rw [template_tags_managed_entry_merged_last.2.2 [("env", "prod")] "cluster-1" "env"
    (by decide)]
  decide

/-- C9: in every successfully created template the cluster-ownership marker
is found under the sanitized key "karpenter.azure.com_cluster" — provided no
other resolver tag key sanitizes to that same key — and never under the
literal key "karpenter.azure.com/cluster", which contains a slash and
therefore cannot be a key of the sanitized tag map. -/
theorem managed_tag_under_sanitized_key :
    (∀ (script : UserData → Except GoError String) (ps : Parameters) (t : Template),
      createLaunchTemplate script ps = Except.ok t →
      lookup t.tags karpenterManagedTagKey = none) ∧
    (∀ (script : UserData → Except GoError String) (ps : Parameters) (t : Template),
      createLaunchTemplate script ps = Except.ok t →
      (∀ k ∈ keys ps.tags, sanitizeKey k = sanitizedManagedTagKey →
        k = karpenterManagedTagKey) →
      lookup t.tags sanitizedManagedTagKey = some ps.clusterName) := by
  refine ⟨?_, ?_⟩
  · intro script ps t h
    rw [createLaunchTemplate_ok_tags script ps t h]
    refine lookup_eq_none_of_not_mem _ _ ?_
    exact no_slash_key_not_in_mergeTags _ _ (by decide)
  · intro script ps t h hsan
    rw [createLaunchTemplate_ok_tags script ps t h]
    have hkey : sanitizedManagedTagKey = sanitizeKey karpenterManagedTagKey := by decide
    rw [hkey]
    have hinj : ∀ q ∈ assign [ps.tags, [(karpenterManagedTagKey, ps.clusterName)]],
        sanitizeKey q.1 = sanitizeKey karpenterManagedTagKey → q.1 = karpenterManagedTagKey := by
      intro q hq hs
      have hqk : q.1 ∈ keys (assign [ps.tags, [(karpenterManagedTagKey, ps.clusterName)]]) :=
        List.mem_map_of_mem _ hq
      obtain ⟨m, hm, hkm⟩ := mem_keys_assign _ _ hqk
      rcases List.mem_cons.mp hm with hm1 | hm2
      · exact hsan q.1 (hm1 ▸ hkm) (hs.trans hkey.symm)
      · have : m = [(karpenterManagedTagKey, ps.clusterName)] := by
          rcases List.mem_cons.mp hm2 with h2 | h2
          · exact h2
          · exact absurd h2 (List.not_mem_nil m)
        rw [this] at hkm
        rcases List.mem_cons.mp hkm with h3 | h3
        · exact h3
        · exact absurd h3 (List.not_mem_nil _)
    rw [lookup_mergeTags, lookup_map_sanitize _ _ hinj]
    exact lookup_assign_pair_managed ps.tags karpenterManagedTagKey ps.clusterName

/-- C9 witness: with a resolver tag map {"env": "prod"} and cluster name
"cluster-1", the created template's tags carry the marker under the sanitized
key and nothing under the literal slash key. -/
theorem managed_tag_under_sanitized_key_witness :
    lookup (mergeTags [[("env", "prod")], [(karpenterManagedTagKey, "cluster-1")]])
        sanitizedManagedTagKey = some "cluster-1" ∧
    lookup (mergeTags [[("env", "prod")], [(karpenterManagedTagKey, "cluster-1")]])
        karpenterManagedTagKey = none :=
  ⟨managed_tag_under_sanitized_key.2 (fun _ => Except.ok "ud")
      ⟨[("env", "prod")], "cluster-1", ⟨"d"⟩, "img"⟩
      ⟨"ud", "img", mergeTags [[("env", "prod")], [(karpenterManagedTagKey, "cluster-1")]]⟩
      rfl (by decide),
   managed_tag_under_sanitized_key.1 (fun _ => Except.ok "ud")
      ⟨[("env", "prod")], "cluster-1", ⟨"d"⟩, "img"⟩
      ⟨"ud", "img", mergeTags [[("env", "prod")], [(karpenterManagedTagKey, "cluster-1")]]⟩
      rfl⟩

end LaunchTemplate
